import Mathlib

/-!
# qweatherapi_mcp: the token cache and the two-step weather lookup of `weather.go`

A shallow embedding of `getJWT`, `makeRequest`, `getCityCode` and
`handleGetWeatherNow`.  The package-level variables `expireAt` and `encodedJWT`
become an explicit `Globals` value that is threaded through every call.  The
clock, the JWT library, the HTTP client and the JSON decoder are collaborators
outside `weather.go`; they are parameters of the model (`JWTLib`, `World`), so
every theorem holds for every behaviour they can have.  Errors are Go `error`
values of which the program only ever uses the message, so an error is the
string returned by its `Error()` method.
-/

namespace Weather

/-! ## Data model -/

/-- The `Config` struct. -/
structure Config where
  privateKey : String
  baseURL : String
  sub : String
  kid : String

/-- The package-level variables `expireAt` and `encodedJWT` (the token cache). -/
structure Globals where
  expireAt : Int
  encodedJWT : String
deriving DecidableEq

/-- The `CityLocation` struct. -/
structure CityLocation where
  name : String
  id : String
  lat : String
  lon : String
  adm2 : String
  adm1 : String
  country : String

/-- The `CityLookupResponse` struct. -/
structure CityLookupResponse where
  code : String
  location : List CityLocation

/-- The `WeatherNow` struct. -/
structure WeatherNow where
  obsTime : String
  temp : String
  feelsLike : String
  icon : String
  text : String
  windDir : String
  windScale : String
  windSpeed : String
  humidity : String
  precip : String

/-- The `WeatherResponse` struct. -/
structure WeatherResponse where
  code : String
  updateTime : String
  now : WeatherNow

/-! ## Machine integers -/

/-- The value of an `int64` expression whose mathematical value is `x`
(two's-complement wrap-around, as Go defines signed overflow). -/
def wrapInt64 (x : Int) : Int := (x + 2 ^ 63) % 2 ^ 64 - 2 ^ 63

/-- Go `a + b` on `int64`. -/
def add64 (a b : Int) : Int := wrapInt64 (a + b)

/-- Go `a - b` on `int64`. -/
def sub64 (a b : Int) : Int := wrapInt64 (a - b)

/-- The clock values at which neither `currentTime + 86400 - 100` nor
`currentTime - 30` leaves the `int64` range. -/
def ClockInRange (currentTime : Int) : Prop :=
  -(2 ^ 63) ≤ currentTime - 30 ∧ currentTime + 86400 < 2 ^ 63

instance (currentTime : Int) : Decidable (ClockInRange currentTime) := by
  unfold ClockInRange
  exact inferInstance

/-! ## The JWT library (`github.com/golang-jwt/jwt/v5`) -/

/-- The `jwt.MapClaims` literal built by `getJWT`: keys `iat`, `exp`, `sub`. -/
structure MapClaims where
  iat : Int
  exp : Int
  sub : String
deriving DecidableEq

/-- A `jwt.Token`: the header map and the claims. -/
structure Token where
  header : List (String × String)
  claims : MapClaims
deriving DecidableEq

/-- Go `m[k] = v` on a map kept as an association list. -/
def mapSet (m : List (String × String)) (k v : String) : List (String × String) :=
  if m.any (fun e => e.1 == k) then m.map (fun e => if e.1 == k then (k, v) else e)
  else m ++ [(k, v)]

/-- The library function `jwt.NewWithClaims(method, claims)`: the default header
carries `typ` and `alg`. -/
def NewWithClaims (alg : String) (claims : MapClaims) : Token :=
  { header := [("typ", "JWT"), ("alg", alg)], claims := claims }

/-- The operations of the JWT library that `getJWT` reaches, for a key type
`Key` and a raw signature type `Sig`. -/
structure JWTLib (Key Sig : Type) where
  /-- The function `jwt.ParseEdPrivateKeyFromPEM`. -/
  parseEdPrivateKeyFromPEM : String → Except String Key
  /-- The method `Token.SigningString`: the encoded header and claims. -/
  signingString : Token → Except String String
  /-- The method `SigningMethodEd25519.Sign`. -/
  sign : String → Key → Except String Sig
  /-- The method `Token.EncodeSegment` applied to a signature. -/
  encodeSegment : Sig → String

/-- The library method `Token.SignedString(key)`: the signing string, a dot, and
the encoded signature. -/
def SignedString {Key Sig : Type} (lib : JWTLib Key Sig) (token : Token) (key : Key) :
    Except String String :=
  match lib.signingString token with
  | .error err => .error err
  | .ok sstr =>
    match lib.sign sstr key with
    | .error err => .error err
    | .ok sig => .ok (sstr ++ "." ++ lib.encodeSegment sig)

/-- A use of the signing key material by `getJWT`. -/
inductive KeyUse (Key : Type) where
  /-- A call of `jwt.ParseEdPrivateKeyFromPEM` on the given PEM text. -/
  | parse (pem : String)
  /-- A call of `token.SignedString(key)`. -/
  | sign (key : Key) (token : Token)
deriving DecidableEq

/-- How a function ends: it returns a value, or `log.Fatalf` ends the process. -/
inductive Run (α : Type) where
  | ret (a : α)
  | fatal (msg : String)
deriving DecidableEq

/-! ## `getJWT` -/

/-- The function `getJWT`, run with the cache `g` when `time.Now().Unix()` is
`currentTime`.  Returns how the call ends, the cache afterwards, and the uses of
the key material in order. -/
def getJWT {Key Sig : Type} (lib : JWTLib Key Sig) (config : Config) (g : Globals)
    (currentTime : Int) : Run String × Globals × List (KeyUse Key) :=
  if g.encodedJWT ≠ "" ∧ currentTime < g.expireAt then
    (.ret g.encodedJWT, g, [])
  else
    let expireAt := sub64 (add64 currentTime 86400) 100
    let g1 : Globals := { g with expireAt := expireAt }
    let claims : MapClaims :=
      { iat := sub64 currentTime 30, exp := expireAt, sub := config.sub }
    match lib.parseEdPrivateKeyFromPEM config.privateKey with
    | .error err => (.fatal ("无法解析私钥: " ++ err), g1, [.parse config.privateKey])
    | .ok key =>
      let token := NewWithClaims "EdDSA" claims
      let token : Token := { token with header := mapSet token.header "kid" config.kid }
      match SignedString lib token key with
      | .error err =>
        (.fatal ("无法签名token: " ++ err), { g1 with encodedJWT := "" },
          [.parse config.privateKey, .sign key token])
      | .ok signed =>
        (.ret signed, { g1 with encodedJWT := signed },
          [.parse config.privateKey, .sign key token])

/-! ## The HTTP client, the clock and the JSON decoder -/

/-- The request handed to `client.Do`: `GET url` with the query parameters added
by `makeRequest` and the `Authorization` header it sets. -/
structure Request where
  method : String
  url : String
  params : List (String × String)
  authorization : String
deriving DecidableEq

/-- What `makeRequest` reads of an `http.Response`: the status code and the
outcome of `io.ReadAll(resp.Body)`. -/
structure Response where
  statusCode : Int
  body : Except String (List UInt8)

/-- Everything outside `weather.go` that a call can observe. -/
structure World (Key Sig : Type) where
  /-- The JWT library. -/
  lib : JWTLib Key Sig
  /-- The value of `time.Now().Unix()` at the n-th reading of the clock. -/
  clock : Nat → Int
  /-- The error, if any, of `http.NewRequestWithContext(ctx, "GET", url, nil)`. -/
  newRequest : String → Except String Unit
  /-- The outcome of `client.Do(req)`, which may depend on every request issued
  before it: a transport error or a response. -/
  clientDo : List Request → Request → Except String Response
  /-- The function `json.Unmarshal` into a `CityLookupResponse`. -/
  unmarshalCity : List UInt8 → Except String CityLookupResponse
  /-- The function `json.Unmarshal` into a `WeatherResponse`. -/
  unmarshalWeather : List UInt8 → Except String WeatherResponse

/-- The mutable state of the process: the token cache, how often the clock has
been read, and the requests handed to `client.Do` so far, oldest first. -/
structure State where
  globals : Globals
  clockReads : Nat
  sent : List Request
deriving DecidableEq

/-! ## `makeRequest` and `getCityCode` -/

/-- The function `makeRequest`.  Its Go result `([]byte, error)` is an `Except`:
an error comes with a nil body. -/
def makeRequest {Key Sig : Type} (w : World Key Sig) (config : Config) (st : State)
    (url : String) (params : List (String × String)) :
    Run (Except String (List UInt8)) × State :=
  match w.newRequest url with
  | .error err => (.ret (.error ("创建请求失败: " ++ err)), st)
  | .ok _ =>
    let jwt := getJWT w.lib config st.globals (w.clock st.clockReads)
    let st1 : State := { st with globals := jwt.2.1, clockReads := st.clockReads + 1 }
    match jwt.1 with
    | .fatal msg => (.fatal msg, st1)
    | .ret jwtToken =>
      let req : Request :=
        { method := "GET", url := url, params := params,
          authorization := "Bearer " ++ jwtToken }
      let st2 : State := { st1 with sent := st1.sent ++ [req] }
      match w.clientDo st1.sent req with
      | .error err => (.ret (.error ("请求失败: " ++ err)), st2)
      | .ok resp =>
        if resp.statusCode ≠ 200 then
          (.ret (.error ("HTTP错误，状态码: " ++ toString resp.statusCode)), st2)
        else
          match resp.body with
          | .error err => (.ret (.error ("读取响应失败: " ++ err)), st2)
          | .ok body => (.ret (.ok body), st2)

/-- The function `getCityCode`. -/
def getCityCode {Key Sig : Type} (w : World Key Sig) (config : Config) (st : State)
    (city : String) : Run (Except String String) × State :=
  let params := [("location", city)]
  match makeRequest w config st (config.baseURL ++ "/geo/v2/city/lookup") params with
  | (.fatal msg, st1) => (.fatal msg, st1)
  | (.ret (.error err), st1) => (.ret (.error err), st1)
  | (.ret (.ok body), st1) =>
    match w.unmarshalCity body with
    | .error err => (.ret (.error ("解析城市数据失败: " ++ err)), st1)
    | .ok response =>
      if h : response.code ≠ "200" ∨ response.location.length = 0 then
        (.ret (.error ("未找到城市: " ++ city)), st1)
      else
        (.ret (.ok (response.location.get
          ⟨0, Nat.pos_of_ne_zero (fun h0 => h (Or.inr h0))⟩).id), st1)

/-! ## `handleGetWeatherNow` -/

/-- A Go `interface{}` value of a decoded JSON argument map. -/
inductive Any where
  | null
  | bool (b : Bool)
  | number (n : Int)
  | str (s : String)
  | array (items : List Any)
  | object (fields : List (String × Any))

/-- The arguments of an `mcp.CallToolRequest`: `request.Params.Arguments`. -/
abbrev Arguments := List (String × Any)

/-- Go `arguments[key].(string)` in its two-value form: the string, when the key
is present and holds a string. -/
def stringArg (arguments : Arguments) (key : String) : Option String :=
  match arguments.lookup key with
  | some (.str s) => some s
  | _ => none

/-- An `mcp.TextContent` value. -/
structure TextContent where
  type : String
  text : String
deriving DecidableEq

/-- An `mcp.CallToolResult` as the handler builds it: only `Content` is set. -/
structure CallToolResult where
  content : List TextContent
deriving DecidableEq

/-- The result built on every non-fatal path after validation: one text content
and a nil error. -/
def textResult (text : String) : Option CallToolResult × Option String :=
  (some { content := [{ type := "text", text := text }] }, none)

/-- The report assembled by the `result += fmt.Sprintf(...)` lines. -/
def formatReport (location : String) (response : WeatherResponse) : String :=
  let result := "当前" ++ location ++ "的天气状况为：\n"
  let result := result ++ ("温度：" ++ response.now.temp ++ "℃\n")
  let result := result ++ ("体感温度：" ++ response.now.feelsLike ++ "℃\n")
  let result := result ++ ("天气状况：" ++ response.now.text ++ "\n")
  let result := result ++ ("风向：" ++ response.now.windDir ++ "\n")
  let result := result ++ ("风力等级：" ++ response.now.windScale ++ "\n")
  let result := result ++ ("风速：" ++ response.now.windSpeed ++ "公里/小时\n")
  let result := result ++ ("相对湿度：" ++ response.now.humidity ++ "%\n")
  let result := result ++ ("过去1小时降水量：" ++ response.now.precip ++ "毫米\n")
  let result := result ++ ("更新时间：" ++ response.updateTime ++ "\n")
  result

/-- The function `handleGetWeatherNow`.  Its Go result
`(*mcp.CallToolResult, error)` is a pair of options (`none` is nil). -/
def handleGetWeatherNow {Key Sig : Type} (w : World Key Sig) (config : Config)
    (st : State) (arguments : Arguments) :
    Run (Option CallToolResult × Option String) × State :=
  match stringArg arguments "location" with
  | none => (.ret (none, some "缺少location参数"), st)
  | some location =>
    match getCityCode w config st location with
    | (.fatal msg, st1) => (.fatal msg, st1)
    | (.ret (.error err), st1) =>
      (.ret (textResult ("输入的地区不存在，无法提供天气预报: " ++ err)), st1)
    | (.ret (.ok cityCode), st1) =>
      let params := [("location", cityCode)]
      match makeRequest w config st1 (config.baseURL ++ "/v7/weather/now") params with
      | (.fatal msg, st2) => (.fatal msg, st2)
      | (.ret (.error err), st2) =>
        (.ret (textResult ("获取天气信息失败: " ++ err)), st2)
      | (.ret (.ok body), st2) =>
        match w.unmarshalWeather body with
        | .error err => (.ret (textResult ("解析天气数据失败: " ++ err)), st2)
        | .ok response =>
          if response.code ≠ "200" then
            (.ret (textResult "输入的地区不存在，无法提供天气预报"), st2)
          else
            (.ret (textResult (formatReport location response)), st2)

/-! ## Notions used to state the properties -/

/-- The configured key is usable: it parses, and signing with it succeeds. -/
def KeyOK {Key Sig : Type} (lib : JWTLib Key Sig) (config : Config) : Prop :=
  ∃ key, lib.parseEdPrivateKeyFromPEM config.privateKey = .ok key ∧
    ∀ token, ∃ signed, SignedString lib token key = .ok signed

/-- The text `t` begins with the text `p`. -/
def BeginsWith (p t : String) : Prop := p.data <+: t.data

instance (p t : String) : Decidable (BeginsWith p t) := by
  unfold BeginsWith
  exact inferInstance

/-! ## Sample collaborators

Concrete instances of the parameters, on which the definitions above can be
evaluated. -/

/-- A JWT library whose keys and signatures carry no data: every non-empty PEM
text parses, and the signing string records the expiry claim. -/
def sampleLib : JWTLib Unit Unit where
  parseEdPrivateKeyFromPEM := fun pem => if pem = "" then .error "no PEM data" else .ok ()
  signingString := fun token => .ok (if token.claims.exp < 100000 then "h.early" else "h.late")
  sign := fun _ _ => .ok ()
  encodeSegment := fun _ => "sig"

/-- The configuration of the end-to-end scenario: `sub = "test"`, `kid = "k1"`. -/
def sampleConfig : Config :=
  { privateKey := "PEM", baseURL := "https://api.example", sub := "test", kid := "k1" }

/-- The cache of a fresh process: both package-level variables are zero values. -/
def emptyCache : Globals := { expireAt := 0, encodedJWT := "" }

/-- A geocoding candidate with the given identifier. -/
def sampleCity (id : String) : CityLocation :=
  { name := "天河", id := id, lat := "23.13", lon := "113.36", adm2 := "广州",
    adm1 := "广东省", country := "中国" }

/-- A weather payload with the given top-level code and `now.temp = "23"`. -/
def sampleWeather (code : String) : WeatherResponse :=
  { code := code, updateTime := "2024-05-01T12:05+08:00",
    now := { obsTime := "2024-05-01T12:00+08:00", temp := "23", feelsLike := "25",
             icon := "101", text := "多云", windDir := "东南风", windScale := "2",
             windSpeed := "9", humidity := "78", precip := "0.0" } }

/-- A provider mock.  The location `离线` cannot be reached, `维护` is answered
with status 204, `广州 天河` resolves to `101280101`, `深圳` to `101280601`,
`幽灵` to an identifier whose weather payload has code 404, and every other
location has no candidate. -/
def sampleWorld : World Unit Unit where
  lib := sampleLib
  clock := fun n => 1700000000 + n
  newRequest := fun _ => .ok ()
  clientDo := fun _ req =>
    if req.params = [("location", "离线")] then .error "dial tcp: i/o timeout"
    else if req.params = [("location", "维护")] then
      .ok { statusCode := 204, body := .ok [] }
    else if req.url = "https://api.example/geo/v2/city/lookup" then
      if req.params = [("location", "广州 天河")] then .ok { statusCode := 200, body := .ok [1] }
      else if req.params = [("location", "深圳")] then .ok { statusCode := 200, body := .ok [2] }
      else if req.params = [("location", "幽灵")] then .ok { statusCode := 200, body := .ok [3] }
      else if req.params = [("location", "乱码")] then .ok { statusCode := 200, body := .ok [9] }
      else .ok { statusCode := 200, body := .ok [0] }
    else if req.params = [("location", "101280101")] then
      .ok { statusCode := 200, body := .ok [4] }
    else .ok { statusCode := 200, body := .ok [5] }
  unmarshalCity := fun body =>
    if body = [1] then .ok { code := "200", location := [sampleCity "101280101"] }
    else if body = [2] then .ok { code := "200", location := [sampleCity "101280601"] }
    else if body = [3] then .ok { code := "200", location := [sampleCity "000000000"] }
    else if body = [0] then .ok { code := "404", location := [] }
    else .error "unexpected end of JSON input"
  unmarshalWeather := fun body =>
    if body = [4] then .ok (sampleWeather "200")
    else if body = [5] then .ok (sampleWeather "404")
    else .error "unexpected end of JSON input"

/-- The state of a fresh process. -/
def sampleState : State := { globals := emptyCache, clockReads := 0, sent := [] }

/-- The cache after the first request of `sampleWorld` from `sampleState`. -/
def sampleCached : Globals := { expireAt := 1700086300, encodedJWT := "h.late.sig" }

/-- The geocoding request for a location, as issued in `sampleWorld`. -/
def sampleLookup (location : String) : Request :=
  { method := "GET", url := "https://api.example/geo/v2/city/lookup",
    params := [("location", location)], authorization := "Bearer h.late.sig" }

/-- The weather request for an identifier, as issued in `sampleWorld`. -/
def sampleFetch (cityCode : String) : Request :=
  { method := "GET", url := "https://api.example/v7/weather/now",
    params := [("location", cityCode)], authorization := "Bearer h.late.sig" }

/-! ## Facts about `getJWT` -/

/-- In the clock range the `int64` arithmetic of `getJWT` does not wrap. -/
theorem wrapInt64_of_range (x : Int) (hlo : -(2 ^ 63) ≤ x) (hhi : x < 2 ^ 63) :
    wrapInt64 x = x := by
  unfold wrapInt64
  rw [Int.emod_eq_of_lt (by omega) (by omega)]
  omega

theorem expiry_of_range (currentTime : Int) (h : ClockInRange currentTime) :
    sub64 (add64 currentTime 86400) 100 = currentTime + 86400 - 100 := by
  obtain ⟨hlo, hhi⟩ := h
  unfold sub64 add64
  rw [wrapInt64_of_range (currentTime + 86400) (by omega) hhi]
  exact wrapInt64_of_range _ (by omega) (by omega)

theorem issuedAt_of_range (currentTime : Int) (h : ClockInRange currentTime) :
    sub64 currentTime 30 = currentTime - 30 := by
  obtain ⟨hlo, hhi⟩ := h
  unfold sub64
  exact wrapInt64_of_range _ hlo (by omega)

/-- A string returned by `SignedString` contains a dot, so it is not empty. -/
theorem signedString_ne_empty {Key Sig : Type} (lib : JWTLib Key Sig) (token : Token)
    (key : Key) (signed : String) (h : SignedString lib token key = .ok signed) :
    signed ≠ "" := by
  unfold SignedString at h
  split at h
  · cases h
  · split at h
    · cases h
    · injection h with h
      intro hempty
      rw [← h] at hempty
      have hdata := congrArg String.data hempty
      simp at hdata

/-- On a cache hit `getJWT` returns the cached token and touches nothing. -/
theorem getJWT_hit {Key Sig : Type} (lib : JWTLib Key Sig) (config : Config)
    (g : Globals) (currentTime : Int) (hne : g.encodedJWT ≠ "")
    (hlt : currentTime < g.expireAt) :
    getJWT lib config g currentTime = (.ret g.encodedJWT, g, []) := by
  unfold getJWT
  rw [if_pos ⟨hne, hlt⟩]

/-- Whenever `getJWT` returns, the token it returns is the one left in the
cache, and it is not empty. -/
theorem getJWT_ret_cached {Key Sig : Type} (lib : JWTLib Key Sig) (config : Config)
    (g g1 : Globals) (currentTime : Int) (token : String) (uses : List (KeyUse Key))
    (h : getJWT lib config g currentTime = (.ret token, g1, uses)) :
    g1.encodedJWT = token ∧ token ≠ "" := by
  unfold getJWT at h
  split at h
  · rename_i hhit
    simp only [Prod.mk.injEq, Run.ret.injEq] at h
    obtain ⟨h1, h2, _⟩ := h
    subst h2
    exact ⟨h1, h1 ▸ hhit.1⟩
  · simp only at h
    split at h
    · simp at h
    · split at h
      · simp at h
      · rename_i hsigned
        simp only [Prod.mk.injEq, Run.ret.injEq] at h
        obtain ⟨h1, h2, _⟩ := h
        subst h2
        subst h1
        exact ⟨rfl, signedString_ne_empty lib _ _ _ hsigned⟩

/-! ## The token cache -/

/-- C1 (cache reuse): for every cache state and all times `t1 ≤ t2`, if `getJWT` at
`t1` returns the token `T` and leaves the cached expiry `E`, and `t2 < E`, then
`getJWT` at `t2` returns exactly `T`, uses the key material neither for parsing
nor for signing, and leaves the cached token and the cached expiry as they were. -/
theorem getJWT_cache_reuse {Key Sig : Type} (lib : JWTLib Key Sig) (config : Config)
    (g g1 : Globals) (t1 t2 E : Int) (T : String) (uses : List (KeyUse Key))
    (_h12 : t1 ≤ t2)
    (hcall : getJWT lib config g t1 = (.ret T, g1, uses))
    (hE : g1.expireAt = E) (hlt : t2 < E) :
    getJWT lib config g1 t2 = (.ret T, g1, []) := by
  obtain ⟨hcached, hne⟩ := getJWT_ret_cached lib config g g1 t1 T uses hcall
  subst hE
  rw [getJWT_hit lib config g1 t2 (hcached ▸ hne) hlt, hcached]

theorem getJWT_cache_reuse_witness :
    getJWT sampleLib sampleConfig emptyCache 1000 =
        (.ret "h.early.sig", { expireAt := 87300, encodedJWT := "h.early.sig" },
          [.parse "PEM", .sign ()
            { header := [("typ", "JWT"), ("alg", "EdDSA"), ("kid", "k1")],
              claims := { iat := 970, exp := 87300, sub := "test" } }]) ∧
      getJWT sampleLib sampleConfig { expireAt := 87300, encodedJWT := "h.early.sig" } 87299 =
        (.ret "h.early.sig", { expireAt := 87300, encodedJWT := "h.early.sig" }, []) :=
  ⟨by decide,
   getJWT_cache_reuse sampleLib sampleConfig emptyCache
     { expireAt := 87300, encodedJWT := "h.early.sig" } 1000 87299 87300 "h.early.sig"
     [.parse "PEM", .sign ()
       { header := [("typ", "JWT"), ("alg", "EdDSA"), ("kid", "k1")],
         claims := { iat := 970, exp := 87300, sub := "test" } }]
     (by decide) (by decide) rfl (by decide)⟩

/-- On a cache miss with a key that parses, `getJWT` parses the key once and signs
once, a token whose claims are built from the clock reading; the cached expiry
is the one put into the claims. -/
theorem getJWT_miss {Key Sig : Type} (lib : JWTLib Key Sig) (config : Config)
    (g : Globals) (currentTime : Int) (key : Key)
    (hmiss : g.encodedJWT = "" ∨ g.expireAt ≤ currentTime)
    (hkey : lib.parseEdPrivateKeyFromPEM config.privateKey = .ok key) :
    ∃ token : Token,
      token.claims = { iat := sub64 currentTime 30,
                       exp := sub64 (add64 currentTime 86400) 100,
                       sub := config.sub } ∧
      (getJWT lib config g currentTime).2.2 =
        [.parse config.privateKey, .sign key token] ∧
      (getJWT lib config g currentTime).2.1.expireAt = token.claims.exp ∧
      (∀ signed, SignedString lib token key = .ok signed →
        getJWT lib config g currentTime =
          (.ret signed, { expireAt := token.claims.exp, encodedJWT := signed },
            [.parse config.privateKey, .sign key token])) := by
  have hcond : ¬ (g.encodedJWT ≠ "" ∧ currentTime < g.expireAt) := by
    rintro ⟨hne, hlt⟩
    rcases hmiss with h | h
    · exact hne h
    · omega
  refine ⟨⟨mapSet [("typ", "JWT"), ("alg", "EdDSA")] "kid" config.kid,
      ⟨sub64 currentTime 30, sub64 (add64 currentTime 86400) 100, config.sub⟩⟩,
    rfl, ?_, ?_, ?_⟩
  · unfold getJWT
    rw [if_neg hcond]
    simp only [hkey]
    split <;> rfl
  · unfold getJWT
    rw [if_neg hcond]
    simp only [hkey]
    split <;> rfl
  · intro signed hsigned
    unfold getJWT
    rw [if_neg hcond]
    simp only [hkey, NewWithClaims]
    rw [hsigned]

/-- On a cache miss the cached expiry is overwritten before the key is touched,
and nothing is signed when the key does not parse. -/
theorem getJWT_miss_nokey {Key Sig : Type} (lib : JWTLib Key Sig) (config : Config)
    (g : Globals) (currentTime : Int) (err : String)
    (hmiss : g.encodedJWT = "" ∨ g.expireAt ≤ currentTime)
    (hkey : lib.parseEdPrivateKeyFromPEM config.privateKey = .error err) :
    getJWT lib config g currentTime =
      (.fatal ("无法解析私钥: " ++ err),
        { g with expireAt := sub64 (add64 currentTime 86400) 100 },
        [.parse config.privateKey]) := by
  have hcond : ¬ (g.encodedJWT ≠ "" ∧ currentTime < g.expireAt) := by
    rintro ⟨hne, hlt⟩
    rcases hmiss with h | h
    · exact hne h
    · omega
  unfold getJWT
  rw [if_neg hcond]
  simp only [hkey]

/-- C2 (regeneration): for every clock reading `currentTime` at which the cache
misses (no cached token, or `currentTime` at or past the cached expiry), every
token that is signed carries exactly the claims issued-at `currentTime - 30`,
expiry `currentTime + 86400 - 100` and subject `config.sub` (in `int64`
arithmetic, which agrees with the integers on every clock value in range); the
cached expiry stored afterwards is that same expiry; and with a key that parses
exactly one such token is signed. -/
theorem getJWT_regenerates {Key Sig : Type} (lib : JWTLib Key Sig) (config : Config)
    (g : Globals) (currentTime : Int)
    (hmiss : g.encodedJWT = "" ∨ g.expireAt ≤ currentTime) :
    (∀ key token, KeyUse.sign key token ∈ (getJWT lib config g currentTime).2.2 →
      token.claims = { iat := sub64 currentTime 30,
                       exp := sub64 (add64 currentTime 86400) 100,
                       sub := config.sub }) ∧
    (getJWT lib config g currentTime).2.1.expireAt =
      sub64 (add64 currentTime 86400) 100 ∧
    (∀ key, lib.parseEdPrivateKeyFromPEM config.privateKey = .ok key →
      ∃ token, (getJWT lib config g currentTime).2.2 =
        [.parse config.privateKey, .sign key token]) ∧
    (ClockInRange currentTime →
      sub64 currentTime 30 = currentTime - 30 ∧
      sub64 (add64 currentTime 86400) 100 = currentTime + 86400 - 100) := by
  refine ⟨?_, ?_, ?_, fun hr => ⟨issuedAt_of_range _ hr, expiry_of_range _ hr⟩⟩
  · intro key token hmem
    cases hparse : lib.parseEdPrivateKeyFromPEM config.privateKey with
    | error err =>
      rw [getJWT_miss_nokey lib config g currentTime err hmiss hparse] at hmem
      simp at hmem
    | ok key0 =>
      obtain ⟨token0, hclaims, huses, _, _⟩ :=
        getJWT_miss lib config g currentTime key0 hmiss hparse
      rw [huses] at hmem
      simp at hmem
      rw [hmem.2]
      exact hclaims
  · cases hparse : lib.parseEdPrivateKeyFromPEM config.privateKey with
    | error err =>
      rw [getJWT_miss_nokey lib config g currentTime err hmiss hparse]
    | ok key0 =>
      obtain ⟨token0, hclaims, _, hexp, _⟩ :=
        getJWT_miss lib config g currentTime key0 hmiss hparse
      rw [hexp, hclaims]
  · intro key hparse
    obtain ⟨token0, _, huses, _, _⟩ :=
      getJWT_miss lib config g currentTime key hmiss hparse
    exact ⟨token0, huses⟩

theorem getJWT_regenerates_witness :
    (getJWT sampleLib sampleConfig { expireAt := 87300, encodedJWT := "h.early.sig" }
        1700000000).2.1.expireAt = 1700086300 ∧
    (getJWT sampleLib sampleConfig { expireAt := 87300, encodedJWT := "h.early.sig" }
        1700000000).2.2 =
      [.parse "PEM", .sign ()
        { header := [("typ", "JWT"), ("alg", "EdDSA"), ("kid", "k1")],
          claims := { iat := 1699999970, exp := 1700086300, sub := "test" } }] ∧
    sub64 (add64 1700000000 86400) 100 = 1700000000 + 86400 - 100 :=
  ⟨by decide, by decide,
   ((getJWT_regenerates sampleLib sampleConfig
      { expireAt := 87300, encodedJWT := "h.early.sig" } 1700000000
      (Or.inr (by decide))).2.2.2 (by decide)).2⟩

/-- C3 (expiry monotonicity): for every cache state with cached expiry `E` and
every clock reading `currentTime` at or past `E` (within the range in which the
`int64` arithmetic does not wrap), with a key that parses and signs, `getJWT`
returns a freshly signed token whose expiry claim is strictly greater than `E`
and whose issued-at claim is within 30 seconds of `currentTime`. -/
theorem getJWT_expiry_increases {Key Sig : Type} (lib : JWTLib Key Sig)
    (config : Config) (g : Globals) (currentTime : Int) (key : Key)
    (hpast : g.expireAt ≤ currentTime) (hrange : ClockInRange currentTime)
    (hkey : lib.parseEdPrivateKeyFromPEM config.privateKey = .ok key)
    (hsign : ∀ token, ∃ signed, SignedString lib token key = .ok signed) :
    ∃ (token : Token) (signed : String) (g1 : Globals),
      getJWT lib config g currentTime =
        (.ret signed, g1, [.parse config.privateKey, .sign key token]) ∧
      SignedString lib token key = .ok signed ∧
      g1.encodedJWT = signed ∧
      g1.expireAt = token.claims.exp ∧
      g.expireAt < token.claims.exp ∧
      |currentTime - token.claims.iat| ≤ 30 := by
  obtain ⟨token, hclaims, _, _, hret⟩ :=
    getJWT_miss lib config g currentTime key (Or.inr hpast) hkey
  obtain ⟨signed, hsigned⟩ := hsign token
  refine ⟨token, signed, _, hret signed hsigned, hsigned, rfl, rfl, ?_, ?_⟩
  · rw [hclaims]
    show g.expireAt < sub64 (add64 currentTime 86400) 100
    rw [expiry_of_range _ hrange]
    omega
  · rw [hclaims]
    show |currentTime - sub64 currentTime 30| ≤ 30
    rw [issuedAt_of_range _ hrange]
    rw [abs_le]
    constructor <;> omega

theorem getJWT_expiry_increases_witness :
    ∃ (token : Token) (signed : String) (g1 : Globals),
      getJWT sampleLib sampleConfig { expireAt := 87300, encodedJWT := "h.early.sig" }
          87300 =
        (.ret signed, g1, [.parse sampleConfig.privateKey, .sign () token]) ∧
      SignedString sampleLib token () = .ok signed ∧
      g1.encodedJWT = signed ∧
      g1.expireAt = token.claims.exp ∧
      (87300 : Int) < token.claims.exp ∧
      |(87300 : Int) - token.claims.iat| ≤ 30 :=
  getJWT_expiry_increases sampleLib sampleConfig
    { expireAt := 87300, encodedJWT := "h.early.sig" } 87300 ()
    (by decide) (by decide) rfl (fun _ => ⟨_, rfl⟩)

/-! ## Facts about `makeRequest` -/

/-- With a usable key `getJWT` always returns a token. -/
theorem getJWT_returns {Key Sig : Type} (lib : JWTLib Key Sig) (config : Config)
    (g : Globals) (currentTime : Int) (hkey : KeyOK lib config) :
    ∃ token, (getJWT lib config g currentTime).1 = .ret token := by
  by_cases hhit : g.encodedJWT ≠ "" ∧ currentTime < g.expireAt
  · exact ⟨g.encodedJWT, by rw [getJWT_hit lib config g currentTime hhit.1 hhit.2]⟩
  · obtain ⟨key, hparse, hsign⟩ := hkey
    have hmiss : g.encodedJWT = "" ∨ g.expireAt ≤ currentTime := by
      by_cases hne : g.encodedJWT = ""
      · exact Or.inl hne
      · exact Or.inr (not_lt.mp (fun hlt => hhit ⟨hne, hlt⟩))
    obtain ⟨token, _, _, _, hret⟩ := getJWT_miss lib config g currentTime key hmiss hparse
    obtain ⟨signed, hsigned⟩ := hsign token
    exact ⟨signed, by rw [hret signed hsigned]⟩

/-- When the URL is rejected, `makeRequest` fails before anything else happens. -/
theorem makeRequest_badURL {Key Sig : Type} (w : World Key Sig) (config : Config)
    (st : State) (url : String) (params : List (String × String)) (err : String)
    (hnew : w.newRequest url = .error err) :
    makeRequest w config st url params = (.ret (.error ("创建请求失败: " ++ err)), st) := by
  unfold makeRequest
  simp only [hnew]

/-- When signing is fatal, no request is issued. -/
theorem makeRequest_fatal {Key Sig : Type} (w : World Key Sig) (config : Config)
    (st : State) (url : String) (params : List (String × String)) (msg : String) (u : Unit)
    (hnew : w.newRequest url = .ok u)
    (hjwt : (getJWT w.lib config st.globals (w.clock st.clockReads)).1 = .fatal msg) :
    makeRequest w config st url params =
      (.fatal msg,
        { st with globals := (getJWT w.lib config st.globals (w.clock st.clockReads)).2.1,
                  clockReads := st.clockReads + 1 }) := by
  unfold makeRequest
  simp only [hnew, hjwt]

/-- Once a token is at hand, `makeRequest` issues exactly one request, the `GET`
for its URL and parameters, and its result is decided by the outcome of that
request alone. -/
theorem makeRequest_issued {Key Sig : Type} (w : World Key Sig) (config : Config)
    (st : State) (url : String) (params : List (String × String)) (token : String)
    (u : Unit) (hnew : w.newRequest url = .ok u)
    (hjwt : (getJWT w.lib config st.globals (w.clock st.clockReads)).1 = .ret token) :
    makeRequest w config st url params =
      (.ret
        (match w.clientDo st.sent
            { method := "GET", url := url, params := params,
              authorization := "Bearer " ++ token } with
          | .error err => .error ("请求失败: " ++ err)
          | .ok resp =>
            if resp.statusCode ≠ 200 then
              .error ("HTTP错误，状态码: " ++ toString resp.statusCode)
            else
              match resp.body with
              | .error err => .error ("读取响应失败: " ++ err)
              | .ok body => .ok body),
        { globals := (getJWT w.lib config st.globals (w.clock st.clockReads)).2.1,
          clockReads := st.clockReads + 1,
          sent := st.sent ++ [{ method := "GET", url := url, params := params,
                                authorization := "Bearer " ++ token }] }) := by
  unfold makeRequest
  simp only [hnew, hjwt]
  split
  · rfl
  · split
    · rfl
    · split <;> rfl

/-- The three ways a call of `makeRequest` can go, with the requests it issues. -/
theorem makeRequest_cases {Key Sig : Type} (w : World Key Sig) (config : Config)
    (st : State) (url : String) (params : List (String × String)) :
    (∃ err, w.newRequest url = .error err ∧
      makeRequest w config st url params =
        (.ret (.error ("创建请求失败: " ++ err)), st)) ∨
    (∃ msg st1, w.newRequest url = .ok () ∧
      makeRequest w config st url params = (.fatal msg, st1) ∧ st1.sent = st.sent) ∨
    (∃ token r st1, w.newRequest url = .ok () ∧
      makeRequest w config st url params = (.ret r, st1) ∧
      st1.sent = st.sent ++ [{ method := "GET", url := url, params := params,
                               authorization := "Bearer " ++ token }]) := by
  cases hnew : w.newRequest url with
  | error err => exact Or.inl ⟨err, rfl, makeRequest_badURL w config st url params err hnew⟩
  | ok u =>
    cases hjwt : (getJWT w.lib config st.globals (w.clock st.clockReads)).1 with
    | fatal msg =>
      exact Or.inr (Or.inl ⟨msg, _, rfl,
        makeRequest_fatal w config st url params msg u hnew hjwt, rfl⟩)
    | ret token =>
      exact Or.inr (Or.inr ⟨token, _, _, rfl,
        makeRequest_issued w config st url params token u hnew hjwt, rfl⟩)

/-- With a usable key `makeRequest` always returns to its caller. -/
theorem makeRequest_returns {Key Sig : Type} (w : World Key Sig) (config : Config)
    (st : State) (url : String) (params : List (String × String))
    (hkey : KeyOK w.lib config) :
    ∃ r st1, makeRequest w config st url params = (.ret r, st1) := by
  rcases makeRequest_cases w config st url params with
    ⟨err, _, h⟩ | ⟨msg, st1, hnew, h, _⟩ | ⟨token, r, st1, _, h, _⟩
  · exact ⟨_, _, h⟩
  · exfalso
    obtain ⟨token, htoken⟩ :=
      getJWT_returns w.lib config st.globals (w.clock st.clockReads) hkey
    rw [makeRequest_issued w config st url params token () hnew htoken] at h
    simp at h
  · exact ⟨_, _, h⟩

/-- C9 (HTTP status handling): for every response obtained without a transport
error, `makeRequest` fails with the message `HTTP错误，状态码: ` followed by the
decimal status code, and returns no body, whenever the status code is not 200
(other 2xx codes included); when the status code is 200 and the body can be
read, it returns exactly the body bytes and no error. -/
theorem makeRequest_status {Key Sig : Type} (w : World Key Sig) (config : Config)
    (st : State) (url : String) (params : List (String × String)) (token : String)
    (resp : Response)
    (hnew : w.newRequest url = .ok ())
    (hjwt : (getJWT w.lib config st.globals (w.clock st.clockReads)).1 = .ret token)
    (hdo : w.clientDo st.sent
        { method := "GET", url := url, params := params,
          authorization := "Bearer " ++ token } = .ok resp) :
    (resp.statusCode ≠ 200 →
      (makeRequest w config st url params).1 =
        .ret (.error ("HTTP错误，状态码: " ++ toString resp.statusCode))) ∧
    (resp.statusCode = 200 → ∀ body, resp.body = .ok body →
      (makeRequest w config st url params).1 = .ret (.ok body)) := by
  rw [makeRequest_issued w config st url params token () hnew hjwt, hdo]
  constructor
  · intro hcode
    simp only [hcode, ne_eq, not_false_eq_true, if_true]
  · intro hcode body hbody
    simp only [hcode, hbody, ne_eq, not_true_eq_false, if_false]

theorem makeRequest_status_witness :
    (makeRequest sampleWorld sampleConfig sampleState
        "https://api.example/geo/v2/city/lookup" [("location", "维护")]).1 =
      .ret (.error "HTTP错误，状态码: 204") ∧
    (makeRequest sampleWorld sampleConfig sampleState
        "https://api.example/geo/v2/city/lookup" [("location", "深圳")]).1 =
      .ret (.ok [2]) :=
  ⟨(makeRequest_status sampleWorld sampleConfig sampleState
      "https://api.example/geo/v2/city/lookup" [("location", "维护")] "h.late.sig"
      { statusCode := 204, body := .ok [] } rfl (by decide) rfl).1 (by decide),
   (makeRequest_status sampleWorld sampleConfig sampleState
      "https://api.example/geo/v2/city/lookup" [("location", "深圳")] "h.late.sig"
      { statusCode := 200, body := .ok [2] } rfl (by decide) rfl).2 rfl [2] rfl⟩

/-! ## Facts about `getCityCode` -/

/-- A failure of the request is handed on unchanged by `getCityCode`. -/
theorem getCityCode_request_error {Key Sig : Type} (w : World Key Sig) (config : Config)
    (st st1 : State) (city err : String)
    (hreq : makeRequest w config st (config.baseURL ++ "/geo/v2/city/lookup")
      [("location", city)] = (.ret (.error err), st1)) :
    getCityCode w config st city = (.ret (.error err), st1) := by
  unfold getCityCode
  simp only [hreq]

/-- A fatal exit inside the request ends `getCityCode` as well. -/
theorem getCityCode_fatal {Key Sig : Type} (w : World Key Sig) (config : Config)
    (st st1 : State) (city msg : String)
    (hreq : makeRequest w config st (config.baseURL ++ "/geo/v2/city/lookup")
      [("location", city)] = (.fatal msg, st1)) :
    getCityCode w config st city = (.fatal msg, st1) := by
  unfold getCityCode
  simp only [hreq]

/-- A body that does not decode gives the decode error of `getCityCode`. -/
theorem getCityCode_decode_error {Key Sig : Type} (w : World Key Sig) (config : Config)
    (st st1 : State) (city err : String) (body : List UInt8)
    (hreq : makeRequest w config st (config.baseURL ++ "/geo/v2/city/lookup")
      [("location", city)] = (.ret (.ok body), st1))
    (hdec : w.unmarshalCity body = .error err) :
    getCityCode w config st city = (.ret (.error ("解析城市数据失败: " ++ err)), st1) := by
  unfold getCityCode
  simp only [hreq, hdec]

/-- A decoded response without a usable candidate gives the not-found error. -/
theorem getCityCode_not_found {Key Sig : Type} (w : World Key Sig) (config : Config)
    (st st1 : State) (city : String) (body : List UInt8) (response : CityLookupResponse)
    (hreq : makeRequest w config st (config.baseURL ++ "/geo/v2/city/lookup")
      [("location", city)] = (.ret (.ok body), st1))
    (hdec : w.unmarshalCity body = .ok response)
    (hbad : response.code ≠ "200" ∨ response.location = []) :
    getCityCode w config st city = (.ret (.error ("未找到城市: " ++ city)), st1) := by
  have hcond : response.code ≠ "200" ∨ response.location.length = 0 := by
    rcases hbad with h | h
    · exact Or.inl h
    · exact Or.inr (by rw [h]; rfl)
  unfold getCityCode
  simp only [hreq, hdec]
  rw [dif_pos hcond]

/-- A decoded response with code 200 and a first candidate gives that
candidate's identifier. -/
theorem getCityCode_found {Key Sig : Type} (w : World Key Sig) (config : Config)
    (st st1 : State) (city : String) (body : List UInt8) (response : CityLookupResponse)
    (first : CityLocation) (rest : List CityLocation)
    (hreq : makeRequest w config st (config.baseURL ++ "/geo/v2/city/lookup")
      [("location", city)] = (.ret (.ok body), st1))
    (hdec : w.unmarshalCity body = .ok response)
    (hcode : response.code = "200") (hloc : response.location = first :: rest) :
    getCityCode w config st city = (.ret (.ok first.id), st1) := by
  have hcond : ¬ (response.code ≠ "200" ∨ response.location.length = 0) := by
    rintro (h | h)
    · exact h hcode
    · rw [hloc] at h
      simp at h
  unfold getCityCode
  simp only [hreq, hdec]
  rw [dif_neg hcond]
  simp only [hloc, List.get_eq_getElem, List.getElem_cons_zero]

/-- With a usable key `getCityCode` always returns to its caller. -/
theorem getCityCode_returns {Key Sig : Type} (w : World Key Sig) (config : Config)
    (st : State) (city : String) (hkey : KeyOK w.lib config) :
    ∃ r st1, getCityCode w config st city = (.ret r, st1) := by
  obtain ⟨r, st1, hreq⟩ := makeRequest_returns w config st
    (config.baseURL ++ "/geo/v2/city/lookup") [("location", city)] hkey
  cases r with
  | error err => exact ⟨_, _, getCityCode_request_error w config st st1 city err hreq⟩
  | ok body =>
    cases hdec : w.unmarshalCity body with
    | error err => exact ⟨_, _, getCityCode_decode_error w config st st1 city err body hreq hdec⟩
    | ok response =>
      by_cases hcode : response.code = "200"
      · cases hloc : response.location with
        | nil =>
          exact ⟨_, _, getCityCode_not_found w config st st1 city body response hreq hdec
            (Or.inr hloc)⟩
        | cons first rest =>
          exact ⟨_, _, getCityCode_found w config st st1 city body response first rest
            hreq hdec hcode hloc⟩
      · exact ⟨_, _, getCityCode_not_found w config st st1 city body response hreq hdec
          (Or.inl hcode)⟩

/-- C4 (location resolver): for every geocoding response body that decodes,
`getCityCode` fails with the not-found error `未找到城市: ` followed by the queried
text if and only if the response code is not `"200"` or the candidate list is
empty; otherwise it returns the identifier of candidate 0 unchanged, whatever
the other candidates are. -/
theorem getCityCode_decoded {Key Sig : Type} (w : World Key Sig) (config : Config)
    (st st1 : State) (city : String) (body : List UInt8) (response : CityLookupResponse)
    (hreq : makeRequest w config st (config.baseURL ++ "/geo/v2/city/lookup")
      [("location", city)] = (.ret (.ok body), st1))
    (hdec : w.unmarshalCity body = .ok response) :
    (getCityCode w config st city = (.ret (.error ("未找到城市: " ++ city)), st1) ↔
      (response.code ≠ "200" ∨ response.location = [])) ∧
    (∀ first rest, response.code = "200" → response.location = first :: rest →
      getCityCode w config st city = (.ret (.ok first.id), st1)) := by
  refine ⟨⟨?_, getCityCode_not_found w config st st1 city body response hreq hdec⟩,
    fun first rest hcode hloc =>
      getCityCode_found w config st st1 city body response first rest hreq hdec hcode hloc⟩
  intro hfail
  by_contra hgood
  rw [not_or, not_not] at hgood
  cases hloc : response.location with
  | nil => exact hgood.2 hloc
  | cons first rest =>
    rw [getCityCode_found w config st st1 city body response first rest hreq hdec
      hgood.1 hloc] at hfail
    simp at hfail

theorem getCityCode_decoded_witness :
    getCityCode sampleWorld sampleConfig sampleState "深圳" =
      (.ret (.ok "101280601"),
        { globals := { expireAt := 1700086300, encodedJWT := "h.late.sig" },
          clockReads := 1,
          sent := [{ method := "GET", url := "https://api.example/geo/v2/city/lookup",
                     params := [("location", "深圳")],
                     authorization := "Bearer h.late.sig" }] }) :=
  (getCityCode_decoded sampleWorld sampleConfig sampleState _ "深圳" [2]
      { code := "200", location := [sampleCity "101280601"] }
      rfl rfl).2 (sampleCity "101280601") [] rfl rfl

/-! ## Facts about `handleGetWeatherNow` -/

/-- The type assertion yields a string exactly when the key holds a string. -/
theorem stringArg_eq_some_iff (arguments : Arguments) (key s : String) :
    stringArg arguments key = some s ↔ arguments.lookup key = some (.str s) := by
  unfold stringArg
  constructor
  · intro h
    split at h
    · rename_i t hlookup
      injection h with h
      rw [hlookup, h]
    · cases h
  · intro h
    rw [h]

theorem stringArg_eq_none_iff (arguments : Arguments) (key : String) :
    stringArg arguments key = none ↔ ¬ ∃ s, arguments.lookup key = some (.str s) := by
  constructor
  · rintro h ⟨s, hs⟩
    rw [(stringArg_eq_some_iff arguments key s).mpr hs] at h
    cases h
  · intro h
    cases hs : stringArg arguments key with
    | none => rfl
    | some s => exact absurd ⟨s, (stringArg_eq_some_iff arguments key s).mp hs⟩ h

/-- Validation failure: the handler returns the error at once. -/
theorem handle_invalid {Key Sig : Type} (w : World Key Sig) (config : Config)
    (st : State) (arguments : Arguments) (h : stringArg arguments "location" = none) :
    handleGetWeatherNow w config st arguments = (.ret (none, some "缺少location参数"), st) := by
  unfold handleGetWeatherNow
  simp only [h]

theorem handle_resolver_fatal {Key Sig : Type} (w : World Key Sig) (config : Config)
    (st st1 : State) (arguments : Arguments) (location msg : String)
    (hs : stringArg arguments "location" = some location)
    (h1 : getCityCode w config st location = (.fatal msg, st1)) :
    handleGetWeatherNow w config st arguments = (.fatal msg, st1) := by
  unfold handleGetWeatherNow
  simp only [hs, h1]

/-- Any failure of the resolver becomes the location-not-found message followed
by the failure's own message. -/
theorem handle_resolver_error {Key Sig : Type} (w : World Key Sig) (config : Config)
    (st st1 : State) (arguments : Arguments) (location err : String)
    (hs : stringArg arguments "location" = some location)
    (h1 : getCityCode w config st location = (.ret (.error err), st1)) :
    handleGetWeatherNow w config st arguments =
      (.ret (textResult ("输入的地区不存在，无法提供天气预报: " ++ err)), st1) := by
  unfold handleGetWeatherNow
  simp only [hs, h1]

theorem handle_fetch_fatal {Key Sig : Type} (w : World Key Sig) (config : Config)
    (st st1 st2 : State) (arguments : Arguments) (location cityCode msg : String)
    (hs : stringArg arguments "location" = some location)
    (h1 : getCityCode w config st location = (.ret (.ok cityCode), st1))
    (h2 : makeRequest w config st1 (config.baseURL ++ "/v7/weather/now")
      [("location", cityCode)] = (.fatal msg, st2)) :
    handleGetWeatherNow w config st arguments = (.fatal msg, st2) := by
  unfold handleGetWeatherNow
  simp only [hs, h1, h2]

theorem handle_fetch_error {Key Sig : Type} (w : World Key Sig) (config : Config)
    (st st1 st2 : State) (arguments : Arguments) (location cityCode err : String)
    (hs : stringArg arguments "location" = some location)
    (h1 : getCityCode w config st location = (.ret (.ok cityCode), st1))
    (h2 : makeRequest w config st1 (config.baseURL ++ "/v7/weather/now")
      [("location", cityCode)] = (.ret (.error err), st2)) :
    handleGetWeatherNow w config st arguments =
      (.ret (textResult ("获取天气信息失败: " ++ err)), st2) := by
  unfold handleGetWeatherNow
  simp only [hs, h1, h2]

theorem handle_decode_error {Key Sig : Type} (w : World Key Sig) (config : Config)
    (st st1 st2 : State) (arguments : Arguments) (location cityCode err : String)
    (body : List UInt8)
    (hs : stringArg arguments "location" = some location)
    (h1 : getCityCode w config st location = (.ret (.ok cityCode), st1))
    (h2 : makeRequest w config st1 (config.baseURL ++ "/v7/weather/now")
      [("location", cityCode)] = (.ret (.ok body), st2))
    (h3 : w.unmarshalWeather body = .error err) :
    handleGetWeatherNow w config st arguments =
      (.ret (textResult ("解析天气数据失败: " ++ err)), st2) := by
  unfold handleGetWeatherNow
  simp only [hs, h1, h2, h3]

theorem handle_weather_code {Key Sig : Type} (w : World Key Sig) (config : Config)
    (st st1 st2 : State) (arguments : Arguments) (location cityCode : String)
    (body : List UInt8) (response : WeatherResponse)
    (hs : stringArg arguments "location" = some location)
    (h1 : getCityCode w config st location = (.ret (.ok cityCode), st1))
    (h2 : makeRequest w config st1 (config.baseURL ++ "/v7/weather/now")
      [("location", cityCode)] = (.ret (.ok body), st2))
    (h3 : w.unmarshalWeather body = .ok response) (h4 : response.code ≠ "200") :
    handleGetWeatherNow w config st arguments =
      (.ret (textResult "输入的地区不存在，无法提供天气预报"), st2) := by
  unfold handleGetWeatherNow
  simp only [hs, h1, h2, h3]
  rw [if_pos h4]

theorem handle_success {Key Sig : Type} (w : World Key Sig) (config : Config)
    (st st1 st2 : State) (arguments : Arguments) (location cityCode : String)
    (body : List UInt8) (response : WeatherResponse)
    (hs : stringArg arguments "location" = some location)
    (h1 : getCityCode w config st location = (.ret (.ok cityCode), st1))
    (h2 : makeRequest w config st1 (config.baseURL ++ "/v7/weather/now")
      [("location", cityCode)] = (.ret (.ok body), st2))
    (h3 : w.unmarshalWeather body = .ok response) (h4 : response.code = "200") :
    handleGetWeatherNow w config st arguments =
      (.ret (textResult (formatReport location response)), st2) := by
  unfold handleGetWeatherNow
  simp only [hs, h1, h2, h3]
  rw [if_neg (not_not.mpr h4)]

/-- Once the weather request has returned, the handler returns a text result
and leaves the state of that request. -/
theorem handle_fetch_returned {Key Sig : Type} (w : World Key Sig) (config : Config)
    (st st1 st2 : State) (arguments : Arguments) (location cityCode : String)
    (r : Except String (List UInt8))
    (hs : stringArg arguments "location" = some location)
    (h1 : getCityCode w config st location = (.ret (.ok cityCode), st1))
    (h2 : makeRequest w config st1 (config.baseURL ++ "/v7/weather/now")
      [("location", cityCode)] = (.ret r, st2)) :
    ∃ text, handleGetWeatherNow w config st arguments = (.ret (textResult text), st2) := by
  cases r with
  | error err =>
    exact ⟨_, handle_fetch_error w config st st1 st2 arguments location cityCode err hs h1 h2⟩
  | ok body =>
    cases h3 : w.unmarshalWeather body with
    | error err =>
      exact ⟨_, handle_decode_error w config st st1 st2 arguments location cityCode err body
        hs h1 h2 h3⟩
    | ok response =>
      by_cases h4 : response.code = "200"
      · exact ⟨_, handle_success w config st st1 st2 arguments location cityCode body
          response hs h1 h2 h3 h4⟩
      · exact ⟨_, handle_weather_code w config st st1 st2 arguments location cityCode body
          response hs h1 h2 h3 h4⟩

/-- For a string argument the handler ends fatally or returns a text result. -/
theorem handle_string_cases {Key Sig : Type} (w : World Key Sig) (config : Config)
    (st : State) (arguments : Arguments) (location : String)
    (hs : stringArg arguments "location" = some location) :
    (∃ msg, (handleGetWeatherNow w config st arguments).1 = .fatal msg) ∨
    (∃ text, (handleGetWeatherNow w config st arguments).1 = .ret (textResult text)) := by
  rcases h1 : getCityCode w config st location with ⟨r1, st1⟩
  cases r1 with
  | fatal msg =>
    exact Or.inl ⟨msg, by rw [handle_resolver_fatal w config st st1 arguments location msg hs h1]⟩
  | ret a =>
    cases a with
    | error err =>
      exact Or.inr ⟨_, by
        rw [handle_resolver_error w config st st1 arguments location err hs h1]⟩
    | ok cityCode =>
      rcases h2 : makeRequest w config st1 (config.baseURL ++ "/v7/weather/now")
        [("location", cityCode)] with ⟨r2, st2⟩
      cases r2 with
      | fatal msg =>
        exact Or.inl ⟨msg, by
          rw [handle_fetch_fatal w config st st1 st2 arguments location cityCode msg hs h1 h2]⟩
      | ret r =>
        obtain ⟨text, htext⟩ := handle_fetch_returned w config st st1 st2 arguments location
          cityCode r hs h1 h2
        exact Or.inr ⟨text, by rw [htext]⟩

/-- With a usable key the handler returns a text result for every string
argument. -/
theorem handle_string_returns {Key Sig : Type} (w : World Key Sig) (config : Config)
    (st : State) (arguments : Arguments) (location : String)
    (hs : stringArg arguments "location" = some location) (hkey : KeyOK w.lib config) :
    ∃ text, (handleGetWeatherNow w config st arguments).1 = .ret (textResult text) := by
  obtain ⟨r1, st1, h1⟩ := getCityCode_returns w config st location hkey
  cases r1 with
  | error err =>
    exact ⟨_, by rw [handle_resolver_error w config st st1 arguments location err hs h1]⟩
  | ok cityCode =>
    obtain ⟨r, st2, h2⟩ := makeRequest_returns w config st1
      (config.baseURL ++ "/v7/weather/now") [("location", cityCode)] hkey
    obtain ⟨text, htext⟩ := handle_fetch_returned w config st st1 st2 arguments location
      cityCode r hs h1 h2
    exact ⟨text, by rw [htext]⟩

/-- C5 (operation-level failure): for every request, every state and every
behaviour of the provider, the handler returns an operation-level error with no
result if and only if the `location` argument is absent or is not a string; in
every other case, the signing key being usable, it returns a result with a
single text content and a nil error. -/
theorem handle_error_iff {Key Sig : Type} (w : World Key Sig) (config : Config)
    (st : State) (arguments : Arguments) :
    ((∃ err, (handleGetWeatherNow w config st arguments).1 = .ret (none, some err)) ↔
      ¬ ∃ s, arguments.lookup "location" = some (.str s)) ∧
    (KeyOK w.lib config → (∃ s, arguments.lookup "location" = some (.str s)) →
      ∃ text, (handleGetWeatherNow w config st arguments).1 =
        .ret (some { content := [{ type := "text", text := text }] }, none)) := by
  constructor
  · constructor
    · rintro ⟨err, herr⟩ ⟨s, hs⟩
      rcases handle_string_cases w config st arguments s
        ((stringArg_eq_some_iff arguments "location" s).mpr hs) with
        ⟨msg, hmsg⟩ | ⟨text, htext⟩
      · rw [hmsg] at herr
        cases herr
      · rw [htext] at herr
        simp [textResult] at herr
    · intro h
      exact ⟨_, by
        rw [handle_invalid w config st arguments
          ((stringArg_eq_none_iff arguments "location").mpr h)]⟩
  · rintro hkey ⟨s, hs⟩
    exact handle_string_returns w config st arguments s
      ((stringArg_eq_some_iff arguments "location" s).mpr hs) hkey

theorem handle_error_iff_witness :
    (handleGetWeatherNow sampleWorld sampleConfig sampleState
        [("location", .number 3)]).1 = .ret (none, some "缺少location参数") ∧
    (handleGetWeatherNow sampleWorld sampleConfig sampleState []).1 =
      .ret (none, some "缺少location参数") ∧
    ∃ text, (handleGetWeatherNow sampleWorld sampleConfig sampleState
        [("location", .str "离线")]).1 =
      .ret (some { content := [{ type := "text", text := text }] }, none) :=
  ⟨by decide, by decide,
   (handle_error_iff sampleWorld sampleConfig sampleState [("location", .str "离线")]).2
      ⟨(), rfl, fun _ => ⟨_, rfl⟩⟩ ⟨"离线", rfl⟩⟩

/-! ## The texts the handler produces -/

/-- Every report begins with the character `当`. -/
theorem formatReport_head (location : String) (response : WeatherResponse) :
    (formatReport location response).data.head? = some '当' := by
  unfold formatReport
  simp only [String.append_assoc]
  rw [String.data_append]
  rfl

/-- A text that begins with the location-not-found message is not a report. -/
theorem notFound_ne_report (rest location : String) (response : WeatherResponse) :
    "输入的地区不存在，无法提供天气预报" ++ rest ≠ formatReport location response := by
  intro h
  have hleft : ("输入的地区不存在，无法提供天气预报" ++ rest).data.head? = some '输' := by
    rw [String.data_append]
    rfl
  have hhead := congrArg (fun t => t.data.head?) h
  simp only [formatReport_head, hleft] at hhead
  exact absurd hhead (by decide)

theorem beginsWith_append (p rest : String) : BeginsWith p (p ++ rest) := by
  unfold BeginsWith
  rw [String.data_append]
  exact List.prefix_append _ _

/-- C6 (in-band provider failure): for every string location, when the HTTP
exchange succeeds but the provider signals failure in-band, that is the decoded
geocoding response has a code other than `"200"` or no candidate, or the
decoded weather response has a top-level code other than `"200"`, the handler
returns a result with a nil error whose single text begins with
`输入的地区不存在，无法提供天气预报` and is not a weather report. -/
theorem handle_inband_failure {Key Sig : Type} (w : World Key Sig) (config : Config)
    (st : State) (arguments : Arguments) (location : String)
    (hloc : arguments.lookup "location" = some (.str location)) :
    (∀ body st1 response,
      makeRequest w config st (config.baseURL ++ "/geo/v2/city/lookup")
        [("location", location)] = (.ret (.ok body), st1) →
      w.unmarshalCity body = .ok response →
      (response.code ≠ "200" ∨ response.location = []) →
      ∃ text,
        handleGetWeatherNow w config st arguments =
          (.ret (some { content := [{ type := "text", text := text }] }, none), st1) ∧
        text = "输入的地区不存在，无法提供天气预报: 未找到城市: " ++ location ∧
        BeginsWith "输入的地区不存在，无法提供天气预报" text ∧
        ∀ l r, text ≠ formatReport l r) ∧
    (∀ cityCode st1 body st2 response,
      getCityCode w config st location = (.ret (.ok cityCode), st1) →
      makeRequest w config st1 (config.baseURL ++ "/v7/weather/now")
        [("location", cityCode)] = (.ret (.ok body), st2) →
      w.unmarshalWeather body = .ok response →
      response.code ≠ "200" →
      ∃ text,
        handleGetWeatherNow w config st arguments =
          (.ret (some { content := [{ type := "text", text := text }] }, none), st2) ∧
        text = "输入的地区不存在，无法提供天气预报" ∧
        BeginsWith "输入的地区不存在，无法提供天气预报" text ∧
        ∀ l r, text ≠ formatReport l r) := by
  have hs := (stringArg_eq_some_iff arguments "location" location).mpr hloc
  constructor
  · intro body st1 response hreq hdec hbad
    refine ⟨_, handle_resolver_error w config st st1 arguments location _ hs
      (getCityCode_not_found w config st st1 location body response hreq hdec hbad),
      ?_, ?_, ?_⟩
    · rw [← String.append_assoc]
      rfl
    · exact beginsWith_append _ _
    · intro l r
      exact notFound_ne_report _ l r
  · intro cityCode st1 body st2 response h1 h2 h3 h4
    refine ⟨_, handle_weather_code w config st st1 st2 arguments location cityCode body
      response hs h1 h2 h3 h4, rfl, ?_, ?_⟩
    · exact List.prefix_rfl
    · intro l r
      have h := notFound_ne_report "" l r
      simpa using h

theorem handle_inband_failure_witness :
    (∃ text,
      handleGetWeatherNow sampleWorld sampleConfig sampleState [("location", .str "火星")] =
        (.ret (some { content := [{ type := "text", text := text }] }, none),
          { globals := { expireAt := 1700086300, encodedJWT := "h.late.sig" },
            clockReads := 1,
            sent := [{ method := "GET", url := "https://api.example/geo/v2/city/lookup",
                       params := [("location", "火星")],
                       authorization := "Bearer h.late.sig" }] }) ∧
      text = "输入的地区不存在，无法提供天气预报: 未找到城市: " ++ "火星" ∧
      BeginsWith "输入的地区不存在，无法提供天气预报" text ∧
      ∀ l r, text ≠ formatReport l r) ∧
    (handleGetWeatherNow sampleWorld sampleConfig sampleState
        [("location", .str "幽灵")]).1 =
      .ret (textResult "输入的地区不存在，无法提供天气预报") :=
  ⟨(handle_inband_failure sampleWorld sampleConfig sampleState
      [("location", .str "火星")] "火星" rfl).1 [0] _ { code := "404", location := [] }
      rfl rfl (Or.inr rfl),
   by decide⟩

/-- C7 (report format): for every location text `L` and every decoded weather
response with code `"200"`, the text of the result is exactly the header line
`当前L的天气状况为：` followed, in this order, by the lines for temperature, feels-like
temperature, condition, wind direction, wind scale, wind speed, humidity,
precipitation and update time, each closed by a newline and each field inserted
verbatim. In particular `now.temp = "23"` gives the line `温度：23℃`. -/
theorem handle_report {Key Sig : Type} (w : World Key Sig) (config : Config)
    (st st1 st2 : State) (arguments : Arguments) (location cityCode : String)
    (body : List UInt8) (response : WeatherResponse)
    (hloc : arguments.lookup "location" = some (.str location))
    (h1 : getCityCode w config st location = (.ret (.ok cityCode), st1))
    (h2 : makeRequest w config st1 (config.baseURL ++ "/v7/weather/now")
      [("location", cityCode)] = (.ret (.ok body), st2))
    (h3 : w.unmarshalWeather body = .ok response) (h4 : response.code = "200") :
    handleGetWeatherNow w config st arguments =
      (.ret (textResult (String.join (List.map (fun line => line ++ "\n")
            [ "当前" ++ location ++ "的天气状况为：",
              "温度：" ++ response.now.temp ++ "℃",
              "体感温度：" ++ response.now.feelsLike ++ "℃",
              "天气状况：" ++ response.now.text,
              "风向：" ++ response.now.windDir,
              "风力等级：" ++ response.now.windScale,
              "风速：" ++ response.now.windSpeed ++ "公里/小时",
              "相对湿度：" ++ response.now.humidity ++ "%",
              "过去1小时降水量：" ++ response.now.precip ++ "毫米",
              "更新时间：" ++ response.updateTime ]))), st2) ∧
    (response.now.temp = "23" →
      ∃ rest, handleGetWeatherNow w config st arguments =
        (.ret (textResult ("当前" ++ location ++ "的天气状况为：\n" ++ "温度：23℃\n" ++ rest)),
          st2)) := by
  have hrun := handle_success w config st st1 st2 arguments location cityCode body response
    ((stringArg_eq_some_iff arguments "location" location).mpr hloc) h1 h2 h3 h4
  constructor
  · rw [hrun]
    unfold formatReport
    simp [String.join, String.append_assoc]
  · intro htemp
    refine ⟨"体感温度：" ++ response.now.feelsLike ++ "℃\n" ++
      ("天气状况：" ++ response.now.text ++ "\n") ++
      ("风向：" ++ response.now.windDir ++ "\n") ++
      ("风力等级：" ++ response.now.windScale ++ "\n") ++
      ("风速：" ++ response.now.windSpeed ++ "公里/小时\n") ++
      ("相对湿度：" ++ response.now.humidity ++ "%\n") ++
      ("过去1小时降水量：" ++ response.now.precip ++ "毫米\n") ++
      ("更新时间：" ++ response.updateTime ++ "\n"), ?_⟩
    rw [hrun]
    unfold formatReport
    simp [htemp, String.append_assoc]

theorem handle_report_witness :
    handleGetWeatherNow sampleWorld sampleConfig sampleState
        [("location", .str "广州 天河")] =
      (.ret (textResult
          "当前广州 天河的天气状况为：\n温度：23℃\n体感温度：25℃\n天气状况：多云\n风向：东南风\n风力等级：2\n风速：9公里/小时\n相对湿度：78%\n过去1小时降水量：0.0毫米\n更新时间：2024-05-01T12:05+08:00\n"),
        { globals := sampleCached, clockReads := 2,
          sent := [sampleLookup "广州 天河", sampleFetch "101280101"] }) :=
  (handle_report sampleWorld sampleConfig sampleState
    { globals := sampleCached, clockReads := 1, sent := [sampleLookup "广州 天河"] }
    { globals := sampleCached, clockReads := 2,
      sent := [sampleLookup "广州 天河", sampleFetch "101280101"] }
    [("location", .str "广州 天河")] "广州 天河" "101280101" [4] (sampleWeather "200")
    rfl rfl rfl rfl rfl).1

/-! ## Failure messages -/

/-- C8 fails as stated: at the resolver stage a transport error, an HTTP status
error and a decode error all give the location-not-found message, not the
failed-to-fetch or the failed-to-parse message. -/
theorem handle_resolver_failure_counterexample :
    (makeRequest sampleWorld sampleConfig sampleState
        "https://api.example/geo/v2/city/lookup" [("location", "离线")]).1 =
      .ret (.error "请求失败: dial tcp: i/o timeout") ∧
    (handleGetWeatherNow sampleWorld sampleConfig sampleState
        [("location", .str "离线")]).1 =
      .ret (textResult "输入的地区不存在，无法提供天气预报: 请求失败: dial tcp: i/o timeout") ∧
    ¬ BeginsWith "获取天气信息失败"
        "输入的地区不存在，无法提供天气预报: 请求失败: dial tcp: i/o timeout" ∧
    (handleGetWeatherNow sampleWorld sampleConfig sampleState
        [("location", .str "维护")]).1 =
      .ret (textResult "输入的地区不存在，无法提供天气预报: HTTP错误，状态码: 204") ∧
    ¬ BeginsWith "获取天气信息失败"
        "输入的地区不存在，无法提供天气预报: HTTP错误，状态码: 204" ∧
    (handleGetWeatherNow sampleWorld sampleConfig sampleState
        [("location", .str "乱码")]).1 =
      .ret (textResult
        "输入的地区不存在，无法提供天气预报: 解析城市数据失败: unexpected end of JSON input") ∧
    ¬ BeginsWith "解析天气数据失败"
        "输入的地区不存在，无法提供天气预报: 解析城市数据失败: unexpected end of JSON input" := by
  refine ⟨rfl, ?_, ?_, ?_, ?_, ?_, ?_⟩ <;> decide

/-- C8 as amended: for every string location, a failure of any kind in the
resolver gives the location-not-found message followed by the failure's own
message (`请求失败: …` for a transport error, `HTTP错误，状态码: N` for a status
error, `解析城市数据失败: …` for a decode error, `未找到城市: L` for not found); in
the weather fetcher a transport or status error gives `获取天气信息失败: …`, a decode
error gives `解析天气数据失败: …`, and a code other than `"200"` gives the
location-not-found message. -/
theorem handle_failure_messages {Key Sig : Type} (w : World Key Sig) (config : Config)
    (st : State) (arguments : Arguments) (location : String)
    (hloc : arguments.lookup "location" = some (.str location)) :
    (∀ (s : State) url params token, w.newRequest url = .ok () →
      (getJWT w.lib config s.globals (w.clock s.clockReads)).1 = .ret token →
      (∀ err, w.clientDo s.sent
          { method := "GET", url := url, params := params,
            authorization := "Bearer " ++ token } = .error err →
        (makeRequest w config s url params).1 = .ret (.error ("请求失败: " ++ err))) ∧
      (∀ resp, w.clientDo s.sent
          { method := "GET", url := url, params := params,
            authorization := "Bearer " ++ token } = .ok resp →
        resp.statusCode ≠ 200 →
        (makeRequest w config s url params).1 =
          .ret (.error ("HTTP错误，状态码: " ++ toString resp.statusCode)))) ∧
    (∀ err st1,
      makeRequest w config st (config.baseURL ++ "/geo/v2/city/lookup")
        [("location", location)] = (.ret (.error err), st1) →
      handleGetWeatherNow w config st arguments =
        (.ret (textResult ("输入的地区不存在，无法提供天气预报: " ++ err)), st1)) ∧
    (∀ body st1,
      makeRequest w config st (config.baseURL ++ "/geo/v2/city/lookup")
        [("location", location)] = (.ret (.ok body), st1) →
      (∀ err, w.unmarshalCity body = .error err →
        handleGetWeatherNow w config st arguments =
          (.ret (textResult ("输入的地区不存在，无法提供天气预报: " ++
            ("解析城市数据失败: " ++ err))), st1)) ∧
      (∀ response, w.unmarshalCity body = .ok response →
        (response.code ≠ "200" ∨ response.location = []) →
        handleGetWeatherNow w config st arguments =
          (.ret (textResult ("输入的地区不存在，无法提供天气预报: " ++
            ("未找到城市: " ++ location))), st1))) ∧
    (∀ cityCode st1, getCityCode w config st location = (.ret (.ok cityCode), st1) →
      (∀ err st2,
        makeRequest w config st1 (config.baseURL ++ "/v7/weather/now")
          [("location", cityCode)] = (.ret (.error err), st2) →
        handleGetWeatherNow w config st arguments =
          (.ret (textResult ("获取天气信息失败: " ++ err)), st2)) ∧
      (∀ body st2,
        makeRequest w config st1 (config.baseURL ++ "/v7/weather/now")
          [("location", cityCode)] = (.ret (.ok body), st2) →
        (∀ err, w.unmarshalWeather body = .error err →
          handleGetWeatherNow w config st arguments =
            (.ret (textResult ("解析天气数据失败: " ++ err)), st2)) ∧
        (∀ response, w.unmarshalWeather body = .ok response → response.code ≠ "200" →
          handleGetWeatherNow w config st arguments =
            (.ret (textResult "输入的地区不存在，无法提供天气预报"), st2)))) := by
  have hs := (stringArg_eq_some_iff arguments "location" location).mpr hloc
  refine ⟨?_, ?_, ?_, ?_⟩
  · intro s url params token hnew hjwt
    rw [makeRequest_issued w config s url params token () hnew hjwt]
    constructor
    · intro err hdo
      simp only [hdo]
    · intro resp hdo hcode
      simp only [hdo, hcode, ne_eq, not_false_eq_true, if_true]
  · intro err st1 hreq
    exact handle_resolver_error w config st st1 arguments location err hs
      (getCityCode_request_error w config st st1 location err hreq)
  · intro body st1 hreq
    constructor
    · intro err hdec
      exact handle_resolver_error w config st st1 arguments location _ hs
        (getCityCode_decode_error w config st st1 location err body hreq hdec)
    · intro response hdec hbad
      exact handle_resolver_error w config st st1 arguments location _ hs
        (getCityCode_not_found w config st st1 location body response hreq hdec hbad)
  · intro cityCode st1 h1
    constructor
    · intro err st2 h2
      exact handle_fetch_error w config st st1 st2 arguments location cityCode err hs h1 h2
    · intro body st2 h2
      constructor
      · intro err h3
        exact handle_decode_error w config st st1 st2 arguments location cityCode err body
          hs h1 h2 h3
      · intro response h3 h4
        exact handle_weather_code w config st st1 st2 arguments location cityCode body
          response hs h1 h2 h3 h4

theorem handle_failure_messages_witness :
    handleGetWeatherNow sampleWorld sampleConfig sampleState [("location", .str "离线")] =
      (.ret (textResult ("输入的地区不存在，无法提供天气预报: " ++ "请求失败: dial tcp: i/o timeout")),
        { globals := sampleCached, clockReads := 1, sent := [sampleLookup "离线"] }) :=
  (handle_failure_messages sampleWorld sampleConfig sampleState
    [("location", .str "离线")] "离线" rfl).2.1 "请求失败: dial tcp: i/o timeout"
    { globals := sampleCached, clockReads := 1, sent := [sampleLookup "离线"] } rfl

/-! ## The requests of one invocation -/

/-- The two endpoints are different URLs, whatever the base URL. -/
theorem lookup_url_ne_fetch_url (base : String) :
    base ++ "/geo/v2/city/lookup" ≠ base ++ "/v7/weather/now" := by
  intro h
  have hdata := congrArg String.data h
  simp only [String.data_append, List.append_cancel_left_eq] at hdata
  exact absurd hdata (by decide)

/-- The state after `getCityCode` is the state after its request, and it
succeeds only when that request returned a body. -/
theorem getCityCode_state {Key Sig : Type} (w : World Key Sig) (config : Config)
    (st : State) (city : String) :
    (getCityCode w config st city).2 =
      (makeRequest w config st (config.baseURL ++ "/geo/v2/city/lookup")
        [("location", city)]).2 := by
  rcases hreq : makeRequest w config st (config.baseURL ++ "/geo/v2/city/lookup")
    [("location", city)] with ⟨r, st1⟩
  cases r with
  | fatal msg => rw [getCityCode_fatal w config st st1 city msg hreq]
  | ret a =>
    cases a with
    | error err => rw [getCityCode_request_error w config st st1 city err hreq]
    | ok body =>
      cases hdec : w.unmarshalCity body with
      | error err => rw [getCityCode_decode_error w config st st1 city err body hreq hdec]
      | ok response =>
        by_cases hcode : response.code = "200"
        · cases hloc : response.location with
          | nil =>
            rw [getCityCode_not_found w config st st1 city body response hreq hdec
              (Or.inr hloc)]
          | cons first rest =>
            rw [getCityCode_found w config st st1 city body response first rest
              hreq hdec hcode hloc]
        · rw [getCityCode_not_found w config st st1 city body response hreq hdec
            (Or.inl hcode)]

/-- The handler without a resolved identifier: it stops in the state the
resolver left. -/
theorem handle_unresolved_state {Key Sig : Type} (w : World Key Sig) (config : Config)
    (st : State) (arguments : Arguments) (location : String)
    (hs : stringArg arguments "location" = some location)
    (hun : ∀ cityCode st1, getCityCode w config st location ≠ (.ret (.ok cityCode), st1)) :
    (handleGetWeatherNow w config st arguments).2 = (getCityCode w config st location).2 := by
  rcases h1 : getCityCode w config st location with ⟨r1, st1⟩
  cases r1 with
  | fatal msg => rw [handle_resolver_fatal w config st st1 arguments location msg hs h1]
  | ret a =>
    cases a with
    | error err => rw [handle_resolver_error w config st st1 arguments location err hs h1]
    | ok cityCode => exact absurd h1 (hun cityCode st1)

/-- The handler with a resolved identifier: it stops in the state the weather
request left. -/
theorem handle_resolved_state {Key Sig : Type} (w : World Key Sig) (config : Config)
    (st st1 : State) (arguments : Arguments) (location cityCode : String)
    (hs : stringArg arguments "location" = some location)
    (h1 : getCityCode w config st location = (.ret (.ok cityCode), st1)) :
    handleGetWeatherNow w config st arguments =
      ((handleGetWeatherNow w config st arguments).1,
        (makeRequest w config st1 (config.baseURL ++ "/v7/weather/now")
          [("location", cityCode)]).2) ∧
    (∀ msg, (handleGetWeatherNow w config st arguments).1 = .fatal msg ↔
      (makeRequest w config st1 (config.baseURL ++ "/v7/weather/now")
          [("location", cityCode)]).1 = .fatal msg) := by
  rcases h2 : makeRequest w config st1 (config.baseURL ++ "/v7/weather/now")
    [("location", cityCode)] with ⟨r2, st2⟩
  cases r2 with
  | fatal msg =>
    rw [handle_fetch_fatal w config st st1 st2 arguments location cityCode msg hs h1 h2]
    refine ⟨rfl, fun m => ?_⟩
    constructor <;> intro h <;> simp only [Run.fatal.injEq] at h ⊢ <;> exact h
  | ret r =>
    obtain ⟨text, htext⟩ := handle_fetch_returned w config st st1 st2 arguments location
      cityCode r hs h1 h2
    rw [htext]
    refine ⟨rfl, fun msg => ?_⟩
    constructor <;> intro h <;> cases h

/-- C10 (linear two-step lookup): for every invocation the requests issued are a
prefix of the geocoding `GET` for the argument text followed by the weather
`GET` for the identifier the resolver returned. A validation failure issues no
request; the weather request is issued only if resolution succeeded, and it is
issued whenever resolution succeeded, its URL is accepted and the invocation
returns; no request is issued twice. -/
theorem handle_requests_linear {Key Sig : Type} (w : World Key Sig) (config : Config)
    (st : State) (arguments : Arguments) :
    ((¬ ∃ s, arguments.lookup "location" = some (.str s)) →
      (handleGetWeatherNow w config st arguments).2.sent = st.sent) ∧
    (∀ location, arguments.lookup "location" = some (.str location) →
      ∃ issued : List Request,
        (handleGetWeatherNow w config st arguments).2.sent = st.sent ++ issued ∧
        issued.Nodup ∧
        (issued = [] ∨
         (∃ t1, issued =
            [{ method := "GET", url := config.baseURL ++ "/geo/v2/city/lookup",
               params := [("location", location)], authorization := "Bearer " ++ t1 }]) ∨
         (∃ t1 t2 cityCode st1,
            getCityCode w config st location = (.ret (.ok cityCode), st1) ∧
            issued =
              [{ method := "GET", url := config.baseURL ++ "/geo/v2/city/lookup",
                 params := [("location", location)], authorization := "Bearer " ++ t1 },
               { method := "GET", url := config.baseURL ++ "/v7/weather/now",
                 params := [("location", cityCode)],
                 authorization := "Bearer " ++ t2 }])) ∧
        (∀ r ∈ issued, r.url = config.baseURL ++ "/v7/weather/now" →
          ∃ cityCode st1, getCityCode w config st location = (.ret (.ok cityCode), st1) ∧
            r.method = "GET" ∧ r.params = [("location", cityCode)]) ∧
        (∀ cityCode st1, getCityCode w config st location = (.ret (.ok cityCode), st1) →
          w.newRequest (config.baseURL ++ "/v7/weather/now") = .ok () →
          (∀ msg, (handleGetWeatherNow w config st arguments).1 ≠ .fatal msg) →
          ∃ r ∈ issued, r.url = config.baseURL ++ "/v7/weather/now")) := by
  constructor
  · intro h
    rw [handle_invalid w config st arguments
      ((stringArg_eq_none_iff arguments "location").mpr h)]
  · intro location hloc
    have hs := (stringArg_eq_some_iff arguments "location" location).mpr hloc
    have hne := lookup_url_ne_fetch_url config.baseURL
    by_cases hres : ∃ cityCode st1,
        getCityCode w config st location = (.ret (.ok cityCode), st1)
    · obtain ⟨cityCode, st1, h1⟩ := hres
      obtain ⟨hstate, hfatal⟩ :=
        handle_resolved_state w config st st1 arguments location cityCode hs h1
      have hst1 : st1 = (makeRequest w config st (config.baseURL ++ "/geo/v2/city/lookup")
          [("location", location)]).2 := by
        rw [← getCityCode_state, h1]
      have hsent1 : ∃ t1, st1.sent = st.sent ++
          [{ method := "GET", url := config.baseURL ++ "/geo/v2/city/lookup",
             params := [("location", location)], authorization := "Bearer " ++ t1 }] := by
        rcases makeRequest_cases w config st (config.baseURL ++ "/geo/v2/city/lookup")
          [("location", location)] with ⟨err, _, hreq⟩ | ⟨msg, s1, _, hreq, _⟩ |
            ⟨t1, r, s1, _, hreq, hsent⟩
        · rw [getCityCode_request_error w config st st location _ hreq] at h1
          simp at h1
        · rw [getCityCode_fatal w config st s1 location msg hreq] at h1
          simp at h1
        · rw [hreq] at hst1
          exact ⟨t1, by rw [hst1]; exact hsent⟩
      obtain ⟨t1, hsent1⟩ := hsent1
      rcases makeRequest_cases w config st1 (config.baseURL ++ "/v7/weather/now")
        [("location", cityCode)] with ⟨err, hnew, hreq⟩ | ⟨msg, st2, _, hreq, hsent⟩ |
          ⟨t2, r, st2, _, hreq, hsent⟩
      · refine ⟨_, ?_, List.nodup_singleton _, Or.inr (Or.inl ⟨t1, rfl⟩), ?_, ?_⟩
        · rw [hstate, hreq]
          exact hsent1
        · intro r hr hurl
          rw [List.mem_singleton] at hr
          rw [hr] at hurl
          exact absurd hurl hne
        · intro c s1 _ hnew2 _
          rw [hnew] at hnew2
          cases hnew2
      · refine ⟨_, ?_, List.nodup_singleton _, Or.inr (Or.inl ⟨t1, rfl⟩), ?_, ?_⟩
        · rw [hstate, hreq]
          show st2.sent = _
          rw [hsent]
          exact hsent1
        · intro r hr hurl
          rw [List.mem_singleton] at hr
          rw [hr] at hurl
          exact absurd hurl hne
        · intro c s1 _ _ hnf
          exact absurd ((hfatal msg).mpr (by rw [hreq])) (hnf msg)
      · refine ⟨_, ?_, ?_, Or.inr (Or.inr ⟨t1, t2, cityCode, st1, h1, rfl⟩), ?_, ?_⟩
        · rw [hstate, hreq]
          show st2.sent = _
          rw [hsent, hsent1, List.append_assoc]
          rfl
        · rw [List.nodup_cons]
          refine ⟨fun hmem => ?_, List.nodup_singleton _⟩
          rw [List.mem_singleton] at hmem
          exact hne (congrArg Request.url hmem)
        · intro r hr hurl
          rw [List.mem_pair] at hr
          rcases hr with hr | hr
          · rw [hr] at hurl
            exact absurd hurl hne
          · exact ⟨cityCode, st1, h1, by rw [hr], by rw [hr]⟩
        · intro c s1 _ _ _
          exact ⟨_, List.mem_cons_of_mem _ (List.mem_singleton.mpr rfl), rfl⟩
    · have hun : ∀ cityCode st1,
          getCityCode w config st location ≠ (.ret (.ok cityCode), st1) :=
        fun c s1 h => hres ⟨c, s1, h⟩
      have hstate := handle_unresolved_state w config st arguments location hs hun
      rw [getCityCode_state] at hstate
      rcases makeRequest_cases w config st (config.baseURL ++ "/geo/v2/city/lookup")
        [("location", location)] with ⟨err, _, hreq⟩ | ⟨msg, s1, _, hreq, hsent⟩ |
          ⟨t1, r, s1, _, hreq, hsent⟩
      · refine ⟨[], ?_, List.nodup_nil, Or.inl rfl, ?_, ?_⟩
        · rw [hstate, hreq, List.append_nil]
        · intro r hr
          cases hr
        · intro c s1 h1
          exact absurd h1 (hun c s1)
      · refine ⟨[], ?_, List.nodup_nil, Or.inl rfl, ?_, ?_⟩
        · rw [hstate, hreq, List.append_nil]
          exact hsent
        · intro r hr
          cases hr
        · intro c s2 h1
          exact absurd h1 (hun c s2)
      · refine ⟨_, ?_, List.nodup_singleton _, Or.inr (Or.inl ⟨t1, rfl⟩), ?_, ?_⟩
        · rw [hstate, hreq]
          exact hsent
        · intro r hr hurl
          rw [List.mem_singleton] at hr
          rw [hr] at hurl
          exact absurd hurl hne
        · intro c s2 h1
          exact absurd h1 (hun c s2)

theorem handle_requests_linear_witness :
    (getCityCode sampleWorld sampleConfig sampleState "广州 天河").1 =
      .ret (.ok "101280101") ∧
    sampleWorld.newRequest (sampleConfig.baseURL ++ "/v7/weather/now") = .ok () ∧
    (handleGetWeatherNow sampleWorld sampleConfig sampleState
        [("location", .str "广州 天河")]).2.sent =
      [sampleLookup "广州 天河", sampleFetch "101280101"] ∧
    (handleGetWeatherNow sampleWorld sampleConfig sampleState
        [("location", .str "火星")]).2.sent = [sampleLookup "火星"] ∧
    (handleGetWeatherNow sampleWorld sampleConfig sampleState
        [("location", .number 3)]).2.sent = [] :=
  ⟨rfl, rfl, by decide, by decide,
   (handle_requests_linear sampleWorld sampleConfig sampleState
      [("location", .number 3)]).1 (by rintro ⟨s, hs⟩; cases hs)⟩

end Weather
